import Mathlib

/-
Verification development for the Smart Contract Sentinel analyzers.

This file gives a shallow embedding of the two analyzer modules
(`src/analyzers/solidity_patterns.py` and `src/analyzers/onchain_checks.py`)
and proves the specified properties about them.

Network effects are made explicit: the explorer fetch is parameterised by
the response it received (`FetchResponse`), and the on-chain prober is
parameterised by the outcome of each read-only RPC call (`ChainEnv`).
Python strings are Lean `String`s; Python dicts appear as insertion-ordered
association lists; Python exceptions are the `Except` error branch.
-/

namespace Sentinel

/-! ### String helpers (Python substring and lower-casing semantics) -/

/-- Does the second char list start with the first one? -/
def charsStartWith : List Char → List Char → Bool
  | [], _ => true
  | _ :: _, [] => false
  | a :: as, b :: bs => a == b && charsStartWith as bs

/-- Does the needle occur contiguously inside the haystack? -/
def charsOccur (needle : List Char) : List Char → Bool
  | [] => needle.isEmpty
  | b :: bs => charsStartWith needle (b :: bs) || charsOccur needle bs

/-- Python `pat in hay` on strings: contiguous substring test. -/
def strContains (hay pat : String) : Bool :=
  charsOccur pat.data hay.data

/-- Python `s.lower()` (ASCII range; every pattern in the rule table is ASCII). -/
def strLower (s : String) : String :=
  ⟨s.data.map Char.toLower⟩

/-- Python `pattern.lower() in source_code.lower()`. -/
def strContainsCI (hay pat : String) : Bool :=
  strContains (strLower hay) (strLower pat)

/-! ### Python value model for the explorer response (`get_contract_source`) -/

/-- JSON-decoded Python value, as produced by `resp.json()`. -/
inductive JsonVal where
  | null
  | bool (b : Bool)
  | num (n : Int)
  | str (s : String)
  | list (xs : List JsonVal)
  | dict (fields : List (String × JsonVal))
deriving Repr

/-- Python truthiness of a decoded JSON value. -/
def pyTruthy : JsonVal → Bool
  | .null => false
  | .bool b => b
  | .num n => n != 0
  | .str s => !s.isEmpty
  | .list xs => !xs.isEmpty
  | .dict fields => !fields.isEmpty

/-- First binding of a key in a Python dict (dicts never repeat keys). -/
def pyDictLookup (fields : List (String × JsonVal)) (key : String) : Option JsonVal :=
  (fields.find? (fun kv => kv.1 == key)).map (fun kv => kv.2)

/-- Python `key in xs` for a list, where `key` is a string. -/
def pyListHasStr (key : String) : List JsonVal → Bool
  | [] => false
  | .str s :: rest => s == key || pyListHasStr key rest
  | _ :: rest => pyListHasStr key rest

/-- Uncaught Python exception raised by the fetcher body. -/
inductive PyErr where
  | attributeError
  | typeError
deriving DecidableEq, Repr

/-- Python `key in data` (`not in` is its negation): key test on dicts,
membership on lists, substring on strings, `TypeError` otherwise. -/
def pyContainsStr (key : String) : JsonVal → Except PyErr Bool
  | .dict fields => .ok (pyDictLookup fields key).isSome
  | .list xs => .ok (pyListHasStr key xs)
  | .str s => .ok (strContains s key)
  | _ => .error .typeError

/-- Python `v.get(key)`: `None` for a missing key on a dict,
`AttributeError` on any non-dict value. -/
def pyGetAttr : JsonVal → String → Except PyErr JsonVal
  | .dict fields, key => .ok ((pyDictLookup fields key).getD .null)
  | _, _ => .error .attributeError

/-- What the explorer round trip produced: `failure` covers a transport
error as well as malformed JSON (both are caught by the same handler). -/
inductive FetchResponse where
  | failure
  | ok (data : JsonVal)

/-- Tail of `get_contract_source` from `source_code = result.get("SourceCode") or ""`:
raises on a non-dict `result`, else returns the truthy source or `""`. -/
def finishSource (result : JsonVal) : Except PyErr JsonVal :=
  match pyGetAttr result "SourceCode" with
  | .error e => .error e
  | .ok v =>
    let source_code := if pyTruthy v then v else .str ""
    if pyTruthy source_code then .ok source_code else .ok (.str "")

/-- `get_contract_source(address, chain)`, parameterised by the explorer
response (address and chain only select the URL). `Except.error` marks an
exception escaping to the caller; `Except.ok` is the returned value. -/
def getContractSource : FetchResponse → Except PyErr JsonVal
  | .failure => .ok (.str "")
  | .ok data =>
    if !pyTruthy data then .ok (.str "")
    else
      match pyContainsStr "result" data with
      | .error e => .error e
      | .ok has =>
        if !has then .ok (.str "")
        else
          match pyGetAttr data "result" with
          | .error e => .error e
          | .ok result =>
            match result with
            | .list (first :: _) => finishSource first
            | .str _ => .ok (.str "")
            | .dict fields => finishSource (.dict fields)
            | _ => .ok (.str "")

/-! ### Pattern scorer (`analyze_contract`) -/

/-- One entry of the results list: status label, message, severity. -/
structure Finding where
  status : String
  message : String
  severity : String
deriving DecidableEq, Repr

/-- The fixed `checks` table, in Python dict insertion order:
pattern, message, score impact. -/
def checks : List (String × String × Int) :=
  [("onlyOwner", "✅ Contains access control using onlyOwner.", 0),
   ("mint", "⚠️ Mint function found (check if restricted).", -20),
   ("blacklist", "⚠️ Blacklist logic detected (potential sell restriction).", -15),
   ("tx.origin", "🚨 Uses tx.origin — potential phishing risk.", -40),
   ("renounceOwnership", "✅ Ownership can be renounced.", 20)]

/-- Characters before the first space. -/
def charsFirstWord : List Char → List Char
  | [] => []
  | c :: cs => if c == ' ' then [] else c :: charsFirstWord cs

/-- `message.split(" ")[0]`: the prefix of the message before its first
space (the whole message when it has no space). -/
def statusOf (message : String) : String :=
  ⟨charsFirstWord message.data⟩

/-- Severity from the message emoji: 🚨 is High, ⚠️ is Medium, else Low. -/
def severityFor (message : String) : String :=
  if strContains message "🚨" then "High"
  else if strContains message "⚠️" then "Medium"
  else "Low"

/-- The Finding appended when a rule of the table matches. -/
def findingOf (check : String × String × Int) : Finding :=
  ⟨statusOf check.2.1, check.2.1, severityFor check.2.1⟩

/-- One iteration of the pattern loop over `(results, risk_score, issues)`. -/
def scanStep (source_code : String) (acc : List Finding × Int × Nat)
    (check : String × String × Int) : List Finding × Int × Nat :=
  if strContainsCI source_code check.1 then
    (acc.1 ++ [findingOf check],
     acc.2.1 + check.2.2,
     if check.2.2 < 0 then acc.2.2 + 1 else acc.2.2)
  else acc

/-- The whole pattern loop, from `results = []`, `risk_score = 100`, `issues = 0`. -/
def scanChecks (source_code : String) : List Finding × Int × Nat :=
  checks.foldl (scanStep source_code) ([], 100, 0)

/-- Findings accumulated by the pattern loop. -/
def scanResults (source_code : String) : List Finding :=
  (scanChecks source_code).1

/-- Score accumulated by the pattern loop (before bonus and clamp). -/
def scanScore (source_code : String) : Int :=
  (scanChecks source_code).2.1

/-- Issue count accumulated by the pattern loop. -/
def scanIssues (source_code : String) : Nat :=
  (scanChecks source_code).2.2

/-- Finding appended on the `issues == 0` path. -/
def safeFinding : Finding :=
  ⟨"✅ Safe", "No known risk patterns detected.", "Low"⟩

/-- Finding appended on the unverified-contract path. -/
def notVerifiedFinding : Finding :=
  ⟨"❌ Critical", "Contract not verified — cannot review source.", "High"⟩

/-- Risk label thresholds applied to the clamped score. -/
def riskLabelFor (risk_score : Int) : String :=
  if risk_score ≥ 80 then "🟢 Low Risk"
  else if risk_score ≥ 50 then "🟡 Moderate Risk"
  else "🔴 High Risk"

/-- The trailing summary Finding of the verified path. -/
def summaryFinding (issues : Nat) (risk_score : Int) : Finding :=
  ⟨"📊 Summary",
   "Verified: ✅ | Issues Found: " ++ toString issues ++
     " | Overall Risk: " ++ toString risk_score ++ "/100 (" ++
     riskLabelFor risk_score ++ ")",
   "Info"⟩

/-- `analyze_contract(address, chain)`, parameterised by the source text the
fetcher returned (empty text means unverified or unavailable). -/
def analyzeContract (source_code : String) : List Finding :=
  if source_code.isEmpty then
    let results := [notVerifiedFinding]
    let risk_score : Int := 100 - 80
    results ++
      [⟨"⚠️ Risk",
        "Overall Risk Score: " ++ toString (max risk_score 0) ++ "/100 (Critical)",
        "High"⟩]
  else
    let scanned := scanChecks source_code
    let results := scanned.1
    let risk_score := scanned.2.1
    let issues := scanned.2.2
    let results2 := if issues = 0 then results ++ [safeFinding] else results
    let risk_score2 := if issues = 0 then risk_score + 10 else risk_score
    let risk_score3 := max 0 (min 100 risk_score2)
    let risk_label := riskLabelFor risk_score3
    results2 ++
      [⟨"📊 Summary",
        "Verified: ✅ | Issues Found: " ++ toString issues ++
          " | Overall Risk: " ++ toString risk_score3 ++ "/100 (" ++
          risk_label ++ ")",
        "Info"⟩]

/-- Score after the `issues == 0` bonus, before clamping. -/
def preClampScore (source_code : String) : Int :=
  if scanIssues source_code = 0 then scanScore source_code + 10
  else scanScore source_code

/-- The score printed in the final Finding of `analyze_contract`. -/
def finalScore (source_code : String) : Int :=
  if source_code.isEmpty then max ((100 : Int) - 80) 0
  else max 0 (min 100 (preClampScore source_code))

/-- The final Finding of `analyze_contract`, rebuilt from `finalScore`. -/
def finalSummary (source_code : String) : Finding :=
  if source_code.isEmpty then
    ⟨"⚠️ Risk",
     "Overall Risk Score: " ++ toString (finalScore source_code) ++ "/100 (Critical)",
     "High"⟩
  else summaryFinding (scanIssues source_code) (finalScore source_code)

/-- The five Findings a rule of the table can produce. -/
def ruleFindings : List Finding :=
  checks.map findingOf

/-! ### On-chain prober (`check_honeypot_and_owner`) -/

/-- RPC endpoints (the module defaults; the environment override only changes
the URL text, which no claim depends on). -/
def RPC_MAP : List (String × String) :=
  [("ethereum", "https://eth.llamarpc.com"),
   ("bsc", "https://bsc-dataseed.binance.org")]

/-- `RPC_MAP.get(chain.lower())`. -/
def rpcLookup (chain : String) : Option String :=
  ((RPC_MAP.find? (fun kv => kv.1 == strLower chain)).map (fun kv => kv.2))

/-- Python `s.title()` for ASCII words: upper-case a letter after a
non-letter, lower-case the rest. -/
def pyTitleChars : Bool → List Char → List Char
  | _, [] => []
  | prevAlpha, c :: cs =>
    let c2 := if c.isAlpha then (if prevAlpha then c.toLower else c.toUpper) else c
    c2 :: pyTitleChars c.isAlpha cs

/-- Python `s.title()`. -/
def pyTitle (s : String) : String :=
  ⟨pyTitleChars false s.data⟩

/-- Outcomes of the read-only RPC calls the prober issues: `none` on an
`Option` field means that call raised and its `except` branch runs. -/
structure ChainEnv where
  connected : Bool
  checksummed : Option String
  code : List Nat
  nameSymbol : Option (String × String)
  owner : Option String
  fnNames : Option (List String)

/-- `check_honeypot_and_owner(address, chain)`, parameterised by the RPC
outcomes. The result models the returned Python dict as an ordered
association list. -/
def check_honeypot_and_owner (address chain : String) (env : ChainEnv) :
    List (String × String) :=
  match rpcLookup chain with
  | none =>
    [("error", "Unsupported chain \x27" ++ chain ++ "\x27. Use \x27ethereum\x27 or \x27bsc\x27.")]
  | some _rpc_url =>
    if !env.connected then
      [("error", "Cannot connect to " ++ pyTitle chain ++ " RPC node.")]
    else
      match env.checksummed with
      | none => [("error", "Invalid address format.")]
      | some _addr =>
        if env.code.isEmpty then
          [("error", "No contract code found (EOA address).")]
        else
          let token :=
            match env.nameSymbol with
            | some ns => ns.1 ++ " (" ++ ns.2 ++ ")"
            | none => "Unknown Token"
          let ownerVal :=
            match env.owner with
            | some o => o
            | none => "⚠️ Owner() not found (may use custom access control)."
          let transfer_test :=
            match env.fnNames with
            | some fns =>
              if fns.contains "transfer" then "✅ Transfer function exists"
              else "❌ Missing transfer()"
            | none => "⚠️ Transfer check failed"
          let honeypot_risk :=
            if strContains transfer_test "✅" then "🟢 Transfer function present"
            else "🔴 Possible Honeypot (transfer() missing)"
          [("token", token), ("owner", ownerVal),
           ("transfer_test", transfer_test), ("honeypot_risk", honeypot_risk)]

/-! ### Structural lemmas about the scorer -/

/-- On empty source the scorer takes the unverified path and emits the
critical notice followed by the score Finding. -/
theorem analyzeContract_unverified (src : String) (h : src.isEmpty = true) :
    analyzeContract src = [notVerifiedFinding, finalSummary src] := by
  have hs : src = "" := (String.isEmpty_iff src).mp h
  subst hs
  rfl

/-- On non-empty source the scorer runs the pattern loop, optionally appends
the safe Finding, and terminates with the summary built from the clamped
score. -/
theorem analyzeContract_verified (src : String) (h : src.isEmpty = false) :
    analyzeContract src =
      (if scanIssues src = 0 then scanResults src ++ [safeFinding]
       else scanResults src) ++
        [summaryFinding (scanIssues src) (finalScore src)] := by
  simp only [analyzeContract, h, Bool.false_eq_true, if_false, summaryFinding,
    finalScore, preClampScore, scanResults, scanScore, scanIssues]

/-- A nonempty pattern cannot occur in the empty source text. -/
theorem isEmpty_false_of_containsCI (src pat : String)
    (hp : (strLower pat).data.isEmpty = false)
    (h : strContainsCI src pat = true) : src.isEmpty = false := by
  cases h2 : src.isEmpty
  · rfl
  · exfalso
    have hs : src = "" := (String.isEmpty_iff src).mp h2
    subst hs
    rw [strContainsCI, strContains] at h
    have hd : (strLower "").data = [] := rfl
    rw [hd] at h
    rw [show charsOccur (strLower pat).data [] = (strLower pat).data.isEmpty from rfl] at h
    rw [hp] at h
    exact Bool.noConfusion h

/-! ### C1 and C3 -/

/-- C1: for every fetched source text (verified or not), the risk score
reported in the final Finding of `analyze_contract` lies in [0,100] after
clamping: the last Finding is exactly the summary built from `finalScore`,
and `finalScore` is bounded. -/
theorem risk_score_reported_in_range (src : String) :
    0 ≤ finalScore src ∧ finalScore src ≤ 100 ∧
    (analyzeContract src).getLast? = some (finalSummary src) := by
  refine ⟨?_, ?_, ?_⟩
  · unfold finalScore
    split
    · norm_num
    · exact le_max_left 0 _
  · unfold finalScore
    split
    · norm_num
    · exact max_le (by norm_num) (min_le_left _ _)
  · cases h : src.isEmpty
    · rw [analyzeContract_verified src h]
      have hf : finalSummary src = summaryFinding (scanIssues src) (finalScore src) := by
        simp [finalSummary, h]
      rw [hf]
      exact List.getLast?_concat _
    · rw [analyzeContract_unverified src h]
      rfl

/-- C3: on empty fetched source, `analyze_contract` returns exactly two
Findings — the High-severity critical notice and the summary stating score
20/100 with label Critical — and runs no pattern checks. -/
theorem unverified_exactly_two_findings :
    analyzeContract "" =
      [⟨"❌ Critical", "Contract not verified — cannot review source.", "High"⟩,
       ⟨"⚠️ Risk", "Overall Risk Score: 20/100 (Critical)", "High"⟩] := by
  rfl

/-! ### C4 -/

/-- Each loop iteration leaves the results list unchanged or appends the
matching rule's Finding. -/
theorem scanStep_results (src : String) (acc : List Finding × Int × Nat)
    (c : String × String × Int) :
    (scanStep src acc c).1 = acc.1 ∨ (scanStep src acc c).1 = acc.1 ++ [findingOf c] := by
  unfold scanStep
  split
  · right; rfl
  · left; rfl

/-- Every Finding the loop accumulates is inherited from the accumulator or
produced by one of the scanned rules. -/
theorem foldl_scan_results_mem (src : String) :
    ∀ (cs : List (String × String × Int)) (acc : List Finding × Int × Nat)
      (f : Finding), f ∈ (cs.foldl (scanStep src) acc).1 →
      f ∈ acc.1 ∨ ∃ c ∈ cs, f = findingOf c := by
  intro cs
  induction cs with
  | nil => intro acc f hf; exact Or.inl hf
  | cons c cs ih =>
    intro acc f hf
    rw [List.foldl_cons] at hf
    rcases ih (scanStep src acc c) f hf with h1 | h2
    · rcases scanStep_results src acc c with he | he
      · rw [he] at h1; exact Or.inl h1
      · rw [he] at h1
        rcases List.mem_append.mp h1 with h | h
        · exact Or.inl h
        · exact Or.inr ⟨c, List.mem_cons_self c cs, by simpa using h⟩
    · obtain ⟨c2, hc2, hfc⟩ := h2
      exact Or.inr ⟨c2, List.mem_cons_of_mem c hc2, hfc⟩

/-- Every Finding of the pattern loop belongs to the rule table. -/
theorem scanResults_subset_ruleFindings (src : String) (f : Finding)
    (hf : f ∈ scanResults src) : f ∈ ruleFindings := by
  rcases foldl_scan_results_mem src checks ([], 100, 0) f hf with h | ⟨c, hc, rfl⟩
  · simp at h
  · exact List.mem_map.mpr ⟨c, hc, rfl⟩

/-- No rule Finding carries the summary severity. -/
theorem ruleFindings_severity : ∀ f ∈ ruleFindings, f.severity ≠ "Info" := by
  decide

/-- C4 counterexample: on the verified source "pragma" no rule matches, so
the report is the safe Finding followed by the summary; the safe Finding is
not a rule-match Finding (and is not the summary), so the report does not
consist of rule-match Findings plus the summary alone. -/
theorem verified_report_shape_counterexample :
    analyzeContract "pragma" = [safeFinding, summaryFinding 0 100] ∧
    safeFinding ∉ ruleFindings ∧
    safeFinding ≠ summaryFinding 0 100 := by
  refine ⟨by decide, by decide, by decide⟩

/-- C4 (amended): for every non-empty fetched source text the report is a
block of Findings, each either a rule-match Finding or the safe
no-known-risk Finding, followed by exactly one trailing summary Finding
that occurs nowhere else. -/
theorem verified_report_shape (src : String) (h : src.isEmpty = false) :
    ∃ pre, analyzeContract src =
        pre ++ [summaryFinding (scanIssues src) (finalScore src)] ∧
      (∀ f ∈ pre, f ∈ ruleFindings ∨ f = safeFinding) ∧
      summaryFinding (scanIssues src) (finalScore src) ∉ pre := by
  have hpre : ∀ f ∈ (if scanIssues src = 0 then scanResults src ++ [safeFinding]
      else scanResults src), f ∈ ruleFindings ∨ f = safeFinding := by
    intro f hf
    split at hf
    · rcases List.mem_append.mp hf with h1 | h1
      · exact Or.inl (scanResults_subset_ruleFindings src f h1)
      · exact Or.inr (by simpa using h1)
    · exact Or.inl (scanResults_subset_ruleFindings src f hf)
  refine ⟨_, analyzeContract_verified src h, hpre, ?_⟩
  intro hmem
  rcases hpre _ hmem with h1 | h1
  · exact ruleFindings_severity _ h1 rfl
  · have h2 := congrArg Finding.severity h1
    rw [show (summaryFinding (scanIssues src) (finalScore src)).severity = "Info" from rfl,
        show safeFinding.severity = "Low" from rfl] at h2
    exact absurd h2 (by decide)

/-- C4 witness: instantiating the amended shape theorem on a concrete
verified source. -/
theorem verified_report_shape_witness :
    ∃ pre, analyzeContract "pragma solidity" =
        pre ++ [summaryFinding (scanIssues "pragma solidity") (finalScore "pragma solidity")] ∧
      (∀ f ∈ pre, f ∈ ruleFindings ∨ f = safeFinding) ∧
      summaryFinding (scanIssues "pragma solidity") (finalScore "pragma solidity") ∉ pre :=
  verified_report_shape "pragma solidity" (by decide)

/-! ### C5 -/

/-- C5: if the source contains `tx.origin` (case-insensitively) and no other
rule pattern, the report is the tx.origin Finding plus a summary stating
1 issue, score 60/100, label Moderate Risk. -/
theorem tx_origin_only_score (src : String)
    (htx : strContainsCI src "tx.origin" = true)
    (honly : strContainsCI src "onlyOwner" = false)
    (hmint : strContainsCI src "mint" = false)
    (hbl : strContainsCI src "blacklist" = false)
    (hren : strContainsCI src "renounceOwnership" = false) :
    analyzeContract src =
      [⟨"🚨", "🚨 Uses tx.origin — potential phishing risk.", "High"⟩,
       summaryFinding 1 60] := by
  have hne : src.isEmpty = false :=
    isEmpty_false_of_containsCI src "tx.origin" (by decide) htx
  have hscan : scanChecks src =
      ([⟨"🚨", "🚨 Uses tx.origin — potential phishing risk.", "High"⟩], 60, 1) := by
    simp only [scanChecks, checks, List.foldl, scanStep, htx, honly, hmint, hbl, hren]
    decide
  rw [analyzeContract_verified src hne]
  have hissues : scanIssues src = 1 := by rw [scanIssues, hscan]
  have hres : scanResults src = [⟨"🚨", "🚨 Uses tx.origin — potential phishing risk.", "High"⟩] := by
    rw [scanResults, hscan]
  have hfinal : finalScore src = 60 := by
    rw [finalScore, preClampScore, hissues]
    simp [hne, scanScore, hscan]
  rw [hissues, hres, hfinal]
  simp

/-- C5 witness: the theorem instantiated on the source text "tx.origin". -/
theorem tx_origin_only_score_witness :
    analyzeContract "tx.origin" =
      [⟨"🚨", "🚨 Uses tx.origin — potential phishing risk.", "High"⟩,
       summaryFinding 1 60] :=
  tx_origin_only_score "tx.origin" (by decide) (by decide) (by decide) (by decide) (by decide)

/-! ### C6 and C7 -/

/-- Shape of a verified report once the pattern-loop outcome is known. -/
theorem analyzeContract_of_scan (src : String) (hne : src.isEmpty = false)
    (res : List Finding) (score : Int) (issues : Nat)
    (hscan : scanChecks src = (res, score, issues)) :
    analyzeContract src =
      (if issues = 0 then res ++ [safeFinding] else res) ++
        [summaryFinding issues
          (max 0 (min 100 (if issues = 0 then score + 10 else score)))] := by
  have hissues : scanIssues src = issues := by rw [scanIssues, hscan]
  have hres : scanResults src = res := by rw [scanResults, hscan]
  have hfinal : finalScore src =
      max 0 (min 100 (if issues = 0 then score + 10 else score)) := by
    rw [finalScore, preClampScore, scanIssues, scanScore, hscan]
    simp [hne]
  rw [analyzeContract_verified src hne, hissues, hres, hfinal]

/-- C6: on non-empty source matching no negative-delta rule, the issue count
is 0, the +10 bonus is applied regardless of which positive-delta rules
matched, the summary reports 0 issues with score 100 and label Low Risk,
the safe no-known-risk Finding occurs exactly once, and when no rule at all
matches the whole report is that safe Finding plus the summary. -/
theorem no_issue_bonus_and_safe_finding (src : String)
    (hne : src.isEmpty = false)
    (hmint : strContainsCI src "mint" = false)
    (hbl : strContainsCI src "blacklist" = false)
    (htx : strContainsCI src "tx.origin" = false) :
    scanIssues src = 0 ∧
    preClampScore src = scanScore src + 10 ∧
    (analyzeContract src).getLast? = some (summaryFinding 0 100) ∧
    (analyzeContract src).count safeFinding = 1 ∧
    (strContainsCI src "onlyOwner" = false →
      strContainsCI src "renounceOwnership" = false →
      analyzeContract src = [safeFinding, summaryFinding 0 100]) := by
  cases ho : strContainsCI src "onlyOwner" <;>
    cases hr : strContainsCI src "renounceOwnership"
  · have hscan : scanChecks src = ([], 100, 0) := by
      simp only [scanChecks, checks, List.foldl, scanStep, ho, hr, hmint, hbl, htx]
      decide
    have hform : analyzeContract src = [safeFinding, summaryFinding 0 100] := by
      rw [analyzeContract_of_scan src hne _ _ _ hscan]; decide
    refine ⟨by rw [scanIssues, hscan], ?_, ?_, ?_, ?_⟩
    · rw [preClampScore, scanIssues, hscan]; simp
    · rw [hform]; decide
    · rw [hform]; decide
    · intro _ _; exact hform
  · have hscan : scanChecks src =
        ([⟨"✅", "✅ Ownership can be renounced.", "Low"⟩], 120, 0) := by
      simp only [scanChecks, checks, List.foldl, scanStep, ho, hr, hmint, hbl, htx]
      decide
    have hform : analyzeContract src =
        [⟨"✅", "✅ Ownership can be renounced.", "Low"⟩,
         safeFinding, summaryFinding 0 100] := by
      rw [analyzeContract_of_scan src hne _ _ _ hscan]; decide
    refine ⟨by rw [scanIssues, hscan], ?_, ?_, ?_, ?_⟩
    · rw [preClampScore, scanIssues, hscan]; simp
    · rw [hform]; decide
    · rw [hform]; decide
    · intro _ hr2
      simp [hr] at hr2
  · have hscan : scanChecks src =
        ([⟨"✅", "✅ Contains access control using onlyOwner.", "Low"⟩], 100, 0) := by
      simp only [scanChecks, checks, List.foldl, scanStep, ho, hr, hmint, hbl, htx]
      decide
    have hform : analyzeContract src =
        [⟨"✅", "✅ Contains access control using onlyOwner.", "Low"⟩,
         safeFinding, summaryFinding 0 100] := by
      rw [analyzeContract_of_scan src hne _ _ _ hscan]; decide
    refine ⟨by rw [scanIssues, hscan], ?_, ?_, ?_, ?_⟩
    · rw [preClampScore, scanIssues, hscan]; simp
    · rw [hform]; decide
    · rw [hform]; decide
    · intro ho2 _
      simp [ho] at ho2
  · have hscan : scanChecks src =
        ([⟨"✅", "✅ Contains access control using onlyOwner.", "Low"⟩,
          ⟨"✅", "✅ Ownership can be renounced.", "Low"⟩], 120, 0) := by
      simp only [scanChecks, checks, List.foldl, scanStep, ho, hr, hmint, hbl, htx]
      decide
    have hform : analyzeContract src =
        [⟨"✅", "✅ Contains access control using onlyOwner.", "Low"⟩,
         ⟨"✅", "✅ Ownership can be renounced.", "Low"⟩,
         safeFinding, summaryFinding 0 100] := by
      rw [analyzeContract_of_scan src hne _ _ _ hscan]; decide
    refine ⟨by rw [scanIssues, hscan], ?_, ?_, ?_, ?_⟩
    · rw [preClampScore, scanIssues, hscan]; simp
    · rw [hform]; decide
    · rw [hform]; decide
    · intro ho2 _
      simp [ho] at ho2

/-- C6 witness: the theorem instantiated on a source matching no rule. -/
theorem no_issue_bonus_and_safe_finding_witness :
    scanIssues "hello world" = 0 ∧
    preClampScore "hello world" = scanScore "hello world" + 10 ∧
    (analyzeContract "hello world").getLast? = some (summaryFinding 0 100) ∧
    (analyzeContract "hello world").count safeFinding = 1 ∧
    (strContainsCI "hello world" "onlyOwner" = false →
      strContainsCI "hello world" "renounceOwnership" = false →
      analyzeContract "hello world" = [safeFinding, summaryFinding 0 100]) :=
  no_issue_bonus_and_safe_finding "hello world" (by decide) (by decide) (by decide) (by decide)

/-- C7: if the source contains both `renounceOwnership` and `mint`
(case-insensitively) and matches no other rule, the report shows the two
rule Findings and a summary stating 1 issue (only the negative delta
counts), score 100 − 20 + 20 = 100, label Low Risk. -/
theorem renounce_and_mint_score (src : String)
    (hmint : strContainsCI src "mint" = true)
    (hren : strContainsCI src "renounceOwnership" = true)
    (honly : strContainsCI src "onlyOwner" = false)
    (hbl : strContainsCI src "blacklist" = false)
    (htx : strContainsCI src "tx.origin" = false) :
    analyzeContract src =
      [⟨"⚠️", "⚠️ Mint function found (check if restricted).", "Medium"⟩,
       ⟨"✅", "✅ Ownership can be renounced.", "Low"⟩,
       summaryFinding 1 100] := by
  have hne : src.isEmpty = false :=
    isEmpty_false_of_containsCI src "mint" (by decide) hmint
  have hscan : scanChecks src =
      ([⟨"⚠️", "⚠️ Mint function found (check if restricted).", "Medium"⟩,
        ⟨"✅", "✅ Ownership can be renounced.", "Low"⟩], 100, 1) := by
    simp only [scanChecks, checks, List.foldl, scanStep, hmint, hren, honly, hbl, htx]
    decide
  rw [analyzeContract_of_scan src hne _ _ _ hscan]
  decide

/-- C7 witness: the theorem instantiated on "renounceOwnership mint". -/
theorem renounce_and_mint_score_witness :
    analyzeContract "renounceOwnership mint" =
      [⟨"⚠️", "⚠️ Mint function found (check if restricted).", "Medium"⟩,
       ⟨"✅", "✅ Ownership can be renounced.", "Low"⟩,
       summaryFinding 1 100] :=
  renounce_and_mint_score "renounceOwnership mint"
    (by decide) (by decide) (by decide) (by decide) (by decide)

/-! ### C2 -/

/-- C2 counterexample: when `result` is a non-empty list, the fetcher does
not return the empty string — a first element bearing a non-empty
`SourceCode` is returned verbatim, and a non-dict first element makes the
attribute access raise instead of returning. -/
theorem fetch_nonempty_list_counterexample :
    getContractSource (.ok (.dict [("result", .list [.num 5])])) =
      .error .attributeError ∧
    getContractSource
        (.ok (.dict [("result", .list [.dict [("SourceCode", .str "pragma solidity")]])])) =
      .ok (.str "pragma solidity") ∧
    getContractSource
        (.ok (.dict [("result", .list [.dict [("SourceCode", .str "pragma solidity")]])])) ≠
      .ok (.str "") := by
  refine ⟨rfl, rfl, ?_⟩
  intro h
  injection h with h1
  injection h1 with h2
  exact absurd h2 (by decide)

/-- C2 (amended): for a transport failure or malformed JSON, a response
missing the `result` field, a string `result`, an empty-list `result`, or a
dict `result` without a non-empty `SourceCode`, the fetcher returns the
empty string and raises nothing. -/
theorem getContractSource_dict_result (fields : List (String × JsonVal))
    (v : JsonVal) (h : pyDictLookup fields "result" = some v) :
    getContractSource (.ok (.dict fields)) =
      match v with
      | .list (first :: _) => finishSource first
      | .str _ => .ok (.str "")
      | .dict inner => finishSource (.dict inner)
      | _ => .ok (.str "") := by
  cases fields with
  | nil => simp [pyDictLookup] at h
  | cons kv rest =>
    simp only [getContractSource,
      show pyTruthy (JsonVal.dict (kv :: rest)) = true from rfl,
      Bool.not_true, Bool.false_eq_true, if_false, pyContainsStr, h,
      Option.isSome_some, pyGetAttr, Option.getD_some]
    cases v with
    | null => rfl
    | bool b => rfl
    | num n => rfl
    | str s => rfl
    | dict d => rfl
    | list xs => cases xs <;> rfl

theorem fetch_degrades_to_empty (fields : List (String × JsonVal)) (msg : String)
    (inner : List (String × JsonVal)) :
    getContractSource .failure = .ok (.str "") ∧
    (pyDictLookup fields "result" = none →
      getContractSource (.ok (.dict fields)) = .ok (.str "")) ∧
    (pyDictLookup fields "result" = some (.str msg) →
      getContractSource (.ok (.dict fields)) = .ok (.str "")) ∧
    (pyDictLookup fields "result" = some (.list []) →
      getContractSource (.ok (.dict fields)) = .ok (.str "")) ∧
    (pyDictLookup fields "result" = some (.dict inner) →
      pyTruthy ((pyDictLookup inner "SourceCode").getD .null) = false →
      getContractSource (.ok (.dict fields)) = .ok (.str "")) := by
  refine ⟨rfl, ?_, ?_, ?_, ?_⟩
  · intro h
    cases fields with
    | nil => rfl
    | cons kv rest =>
      simp [getContractSource, pyTruthy, pyContainsStr, h]
  · intro h
    rw [getContractSource_dict_result fields _ h]
  · intro h
    rw [getContractSource_dict_result fields _ h]
  · intro h hsrc
    rw [getContractSource_dict_result fields _ h]
    simp only [finishSource, pyGetAttr, hsrc, Bool.false_eq_true, if_false, ite_self]

/-- C2 witness: an explorer error message in `result` yields the empty
string. -/
theorem fetch_degrades_to_empty_witness :
    getContractSource (.ok (.dict [("result", .str "Max rate limit reached")])) =
      .ok (.str "") :=
  (fetch_degrades_to_empty [("result", .str "Max rate limit reached")]
    "Max rate limit reached" []).2.2.1 rfl

/-! ### C8, C9 and C10 -/

/-- C8: whenever the returned mapping carries a `honeypot_risk` entry, it
reads "transfer present" exactly when the function enumeration succeeded
and listed `transfer`; in every other case it reads "possible honeypot". -/
theorem honeypot_indicator (address chain : String) (env : ChainEnv) (v : String)
    (hmem : ("honeypot_risk", v) ∈ check_honeypot_and_owner address chain env) :
    (v = "🟢 Transfer function present" ↔
      ∃ fns, env.fnNames = some fns ∧ fns.contains "transfer" = true) ∧
    ((¬ ∃ fns, env.fnNames = some fns ∧ fns.contains "transfer" = true) →
      v = "🔴 Possible Honeypot (transfer() missing)") := by
  obtain ⟨conn, chk, code, ns, ow, fns⟩ := env
  cases hc : rpcLookup chain with
  | none =>
    simp only [check_honeypot_and_owner, hc, List.mem_singleton,
      Prod.mk.injEq] at hmem
    exact absurd hmem.1 (by decide)
  | some url =>
    cases conn with
    | false =>
      simp only [check_honeypot_and_owner, hc, Bool.not_false, if_true,
        List.mem_singleton, Prod.mk.injEq] at hmem
      exact absurd hmem.1 (by decide)
    | true =>
      cases chk with
      | none =>
        simp only [check_honeypot_and_owner, hc, Bool.not_true,
          Bool.false_eq_true, if_false, List.mem_singleton, Prod.mk.injEq] at hmem
        exact absurd hmem.1 (by decide)
      | some caddr =>
        cases code with
        | nil =>
          simp only [check_honeypot_and_owner, hc, Bool.not_true,
            Bool.false_eq_true, if_false, List.isEmpty_nil, if_true,
            List.mem_singleton, Prod.mk.injEq] at hmem
          exact absurd hmem.1 (by decide)
        | cons b bs =>
          cases fns with
          | none =>
            simp only [check_honeypot_and_owner, hc, Bool.not_true,
              Bool.false_eq_true, if_false, List.isEmpty_cons,
              List.mem_cons, List.mem_nil_iff, or_false, Prod.mk.injEq] at hmem
            rcases hmem with ⟨h1, _⟩ | ⟨h1, _⟩ | ⟨h1, _⟩ | ⟨h1, hv⟩
            · exact absurd h1 (by decide)
            · exact absurd h1 (by decide)
            · exact absurd h1 (by decide)
            · have hv2 : v = "🔴 Possible Honeypot (transfer() missing)" :=
                hv.trans (by rfl)
              constructor
              · constructor
                · intro he
                  rw [hv2] at he
                  exact absurd he (by decide)
                · rintro ⟨fns1, hf, _⟩
                  exact Option.noConfusion hf
              · intro _
                exact hv2
          | some l =>
            cases hl : l.contains "transfer" with
            | true =>
              simp only [check_honeypot_and_owner, hc, Bool.not_true,
                Bool.false_eq_true, if_false, List.isEmpty_cons, hl, if_true,
                List.mem_cons, List.mem_nil_iff, or_false, Prod.mk.injEq] at hmem
              rcases hmem with ⟨h1, _⟩ | ⟨h1, _⟩ | ⟨h1, _⟩ | ⟨h1, hv⟩
              · exact absurd h1 (by decide)
              · exact absurd h1 (by decide)
              · exact absurd h1 (by decide)
              · have hv2 : v = "🟢 Transfer function present" :=
                  hv.trans (by rfl)
                constructor
                · constructor
                  · intro _
                    exact ⟨l, rfl, hl⟩
                  · intro _
                    exact hv2
                · intro hno
                  exact absurd ⟨l, rfl, hl⟩ hno
            | false =>
              simp only [check_honeypot_and_owner, hc, Bool.not_true,
                Bool.false_eq_true, if_false, List.isEmpty_cons, hl,
                List.mem_cons, List.mem_nil_iff, or_false, Prod.mk.injEq] at hmem
              rcases hmem with ⟨h1, _⟩ | ⟨h1, _⟩ | ⟨h1, _⟩ | ⟨h1, hv⟩
              · exact absurd h1 (by decide)
              · exact absurd h1 (by decide)
              · exact absurd h1 (by decide)
              · have hv2 : v = "🔴 Possible Honeypot (transfer() missing)" :=
                  hv.trans (by rfl)
                constructor
                · constructor
                  · intro he
                    rw [hv2] at he
                    exact absurd he (by decide)
                  · rintro ⟨fns1, hf, hf2⟩
                    injection hf with hf1
                    rw [← hf1] at hf2
                    rw [hf2] at hl
                    exact Bool.noConfusion hl
                · intro _
                  exact hv2

/-- C8 witness: the theorem instantiated on a probe whose enumeration found
`transfer`. -/
theorem honeypot_indicator_witness :
    ("🟢 Transfer function present" = "🟢 Transfer function present" ↔
      ∃ fns, (ChainEnv.mk true (some "0xA") [96] (some ("Tok", "TK")) (some "0xB")
          (some ["name", "symbol", "owner", "transfer"])).fnNames = some fns ∧
        fns.contains "transfer" = true) ∧
    ((¬ ∃ fns, (ChainEnv.mk true (some "0xA") [96] (some ("Tok", "TK")) (some "0xB")
          (some ["name", "symbol", "owner", "transfer"])).fnNames = some fns ∧
        fns.contains "transfer" = true) →
      "🟢 Transfer function present" = "🔴 Possible Honeypot (transfer() missing)") :=
  honeypot_indicator "0xdead" "ethereum"
    (ChainEnv.mk true (some "0xA") [96] (some ("Tok", "TK")) (some "0xB")
      (some ["name", "symbol", "owner", "transfer"]))
    "🟢 Transfer function present" (by decide)

/-- C9: when the probed address has empty on-chain code, the prober returns
the single-key EOA error mapping, independently of every later sub-probe
outcome. -/
theorem eoa_single_error (address chain rpc_url caddr : String) (env : ChainEnv)
    (hchain : rpcLookup chain = some rpc_url)
    (hconn : env.connected = true)
    (haddr : env.checksummed = some caddr)
    (hcode : env.code = []) :
    check_honeypot_and_owner address chain env =
      [("error", "No contract code found (EOA address).")] := by
  obtain ⟨conn, chk, code, ns, ow, fns⟩ := env
  simp only [ChainEnv.connected] at hconn
  simp only [ChainEnv.checksummed] at haddr
  simp only [ChainEnv.code] at hcode
  subst hconn haddr hcode
  simp [check_honeypot_and_owner, hchain]

/-- C9 witness: the theorem instantiated on a concrete EOA probe. -/
theorem eoa_single_error_witness :
    check_honeypot_and_owner "0xabc" "ethereum"
        (ChainEnv.mk true (some "0xABC") [] none none none) =
      [("error", "No contract code found (EOA address).")] :=
  eoa_single_error "0xabc" "ethereum" "https://eth.llamarpc.com" "0xABC"
    (ChainEnv.mk true (some "0xABC") [] none none none) rfl rfl rfl rfl

/-- C10: every mapping the prober returns carries either exactly the single
key `error` or exactly the four keys `token`, `owner`, `transfer_test`,
`honeypot_risk` — a failed sub-probe substitutes a fallback string, it
never drops its key. -/
theorem probe_key_sets (address chain : String) (env : ChainEnv) :
    (check_honeypot_and_owner address chain env).map Prod.fst = ["error"] ∨
    (check_honeypot_and_owner address chain env).map Prod.fst =
      ["token", "owner", "transfer_test", "honeypot_risk"] := by
  obtain ⟨conn, chk, code, ns, ow, fns⟩ := env
  cases hc : rpcLookup chain with
  | none => exact Or.inl (by simp [check_honeypot_and_owner, hc])
  | some url =>
    cases conn with
    | false => exact Or.inl (by simp [check_honeypot_and_owner, hc])
    | true =>
      cases chk with
      | none => exact Or.inl (by simp [check_honeypot_and_owner, hc])
      | some caddr =>
        cases code with
        | nil => exact Or.inl (by simp [check_honeypot_and_owner, hc])
        | cons b bs => exact Or.inr (by simp [check_honeypot_and_owner, hc])

end Sentinel
